import Mathlib

/-!
Verification of the snowflake MCP server adapter (src/index.ts).

This file gives a shallow embedding of the adapter's decision logic:
configuration loading (`loadConfig`), the lazy single-slot connection
lifecycle (`connectStep`), SQL text construction for the five tools and
three resources, and the CallTool / ReadResource request handlers with
their catch-all error wrapping.  The embedding is translated directly
from the TypeScript source; JavaScript-specific semantics (string
truthiness, `undefined` property access, template-literal interpolation)
are modelled explicitly where the source relies on them.
-/

namespace SnowflakeMCP

/-- JavaScript truthiness of a string: every string except the empty
string is truthy (used by `if (!config.account)` style tests). -/
def truthy (s : String) : Bool := s != ""

/-- JavaScript truthiness of an optional string value, as in
`args?.database`: `undefined` and the empty string are falsy. -/
def truthyOpt : Option String → Bool
  | none => false
  | some s => truthy s

/-- JavaScript `a || b` on a possibly-undefined string `a` (as in
`process.env.SNOWFLAKE_USER || process.env.SNOWFLAKE_USERNAME || ''`):
yields `a` when it is defined and truthy, otherwise `b`. -/
def jsOr : Option String → String → String
  | none, d => d
  | some s, d => if truthy s then s else d

/-- ASCII whitespace recognised by the model of JavaScript
`String.prototype.trim` (the source only ever meets ASCII SQL text;
the additional Unicode space characters trimmed by JavaScript are not
modelled). -/
def isJsWhitespace (c : Char) : Bool :=
  c == ' ' || c == '\t' || c == '\n' || c == '\r' || c == '\x0b' || c == '\x0c'

/-- Model of JavaScript `query.trim()`: strip whitespace from both ends. -/
def jsTrim (s : String) : String :=
  String.mk (((s.data.dropWhile isJsWhitespace).reverse.dropWhile isJsWhitespace).reverse)

/-- Model of JavaScript `query.toUpperCase()` restricted to ASCII
letters (the only case the guard on `SELECT` depends on). -/
def jsToUpper (s : String) : String := String.mk (s.data.map Char.toUpper)

/-- The `read_query` guard from `index.ts`:
`query.trim().toUpperCase().startsWith('SELECT')`. -/
def isSelectQuery (q : String) : Bool :=
  "SELECT".data.isPrefixOf (jsToUpper (jsTrim q)).data

/-- Environment variables read by `loadConfig` (each is either unset or
bound to a string, mirroring `process.env`). -/
structure Env where
  SNOWFLAKE_ACCOUNT : Option String := none
  SNOWFLAKE_USER : Option String := none
  SNOWFLAKE_USERNAME : Option String := none
  SNOWFLAKE_PASSWORD : Option String := none
  SNOWFLAKE_WAREHOUSE : Option String := none
  SNOWFLAKE_DATABASE : Option String := none
  SNOWFLAKE_SCHEMA : Option String := none
  SNOWFLAKE_ROLE : Option String := none
deriving DecidableEq

/-- The `SnowflakeConfig` interface from `index.ts`: account, username
and password mandatory, the rest optional. -/
structure SnowflakeConfig where
  account : String
  username : String
  password : String
  warehouse : Option String := none
  database : Option String := none
  schema : Option String := none
  role : Option String := none
deriving DecidableEq

/-- `SnowflakeMCPServer.loadConfig`: builds the config record from the
environment, throwing `Error("Missing required Snowflake configuration")`
when account, username (from `SNOWFLAKE_USER` with legacy
`SNOWFLAKE_USERNAME` fallback) or password is empty or unset. -/
def loadConfig (env : Env) : Except String SnowflakeConfig :=
  let account := jsOr env.SNOWFLAKE_ACCOUNT ""
  let username := jsOr env.SNOWFLAKE_USER (jsOr env.SNOWFLAKE_USERNAME "")
  let password := jsOr env.SNOWFLAKE_PASSWORD ""
  if !truthy account || !truthy username || !truthy password then
    Except.error "Missing required Snowflake configuration"
  else
    Except.ok
      { account := account
        username := username
        password := password
        warehouse := env.SNOWFLAKE_WAREHOUSE
        database := env.SNOWFLAKE_DATABASE
        schema := env.SNOWFLAKE_SCHEMA
        role := env.SNOWFLAKE_ROLE }

/-- State of a fully constructed server: `handlersInstalled` records that
`setupHandlers()` ran, which happens only after `loadConfig` returned. -/
structure ServerState where
  config : SnowflakeConfig
  handlersInstalled : Bool
deriving DecidableEq

/-- The `SnowflakeMCPServer` constructor: `loadConfig` runs first and a
throw aborts construction, so no request handler is ever installed when
configuration is invalid. -/
def startServer (env : Env) : Except String ServerState :=
  match loadConfig env with
  | Except.error e => Except.error e
  | Except.ok c => Except.ok { config := c, handlersInstalled := true }

/-- The shared connection slot `this.connection`:  either `null`
(`empty`) or holding the object returned by `snowflake.createConnection`
(`conn alive`, where `alive` records whether the subsequent
`connectAsync()` succeeded). -/
inductive ConnSlot
  | empty
  | conn (alive : Bool)
deriving DecidableEq

/-- One invocation of `SnowflakeMCPServer.connect()`.  `connectRes` is
the driver oracle for this attempt: `none` means `connectAsync()`
resolves, `some msg` means it rejects with message `msg`.  Returns the
new slot, whether `createConnection` was invoked, and the error if one
was thrown.  Note that the source assigns `this.connection` BEFORE
awaiting `connectAsync()`, so a failed attempt still leaves the slot
occupied. -/
def connectStep : ConnSlot → Option String → ConnSlot × Bool × Option String
  | ConnSlot.conn a, _ => (ConnSlot.conn a, false, none)
  | ConnSlot.empty, none => (ConnSlot.conn true, true, none)
  | ConnSlot.empty, some msg => (ConnSlot.conn false, true, some msg)

/-- A sequence of `connect()` invocations (one per tool/resource call),
threading the slot and counting how many times `createConnection` ran,
i.e. how many Connection objects were ever created. -/
def runConnects : ConnSlot → List (Option String) → ConnSlot × Nat
  | slot, [] => (slot, 0)
  | slot, r :: rs =>
      let step := connectStep slot r
      let rest := runConnects step.1 rs
      (rest.1, (if step.2.1 then 1 else 0) + rest.2)

/-- A result row: mapping from column name to value, as delivered by the
driver callback. -/
abbrev Row := List (String × String)

/-- Protocol error codes used by the handlers (`ErrorCode` from the MCP
SDK). -/
inductive ErrCode
  | methodNotFound
  | invalidRequest
  | internalError
deriving DecidableEq

/-- The JSON-RPC numeral of each error code, as interpolated into the
`McpError` message by the MCP SDK (`MCP error ${code}: ${message}`). -/
def ErrCode.numStr : ErrCode → String
  | ErrCode.methodNotFound => "-32601"
  | ErrCode.invalidRequest => "-32600"
  | ErrCode.internalError => "-32603"

/-- Errors thrown inside a handler body: a plain `Error`, a runtime
`TypeError` (from property access on `undefined`), or an `McpError`. -/
inductive JsError
  | plain (message : String)
  | typeErr (message : String)
  | mcp (code : ErrCode) (message : String)
deriving DecidableEq

/-- The `.message` property read by the catch-all wrapper.  `McpError`
prefixes its message with the code (behaviour of the MCP SDK class). -/
def JsError.message : JsError → String
  | JsError.plain m => m
  | JsError.typeErr m => m
  | JsError.mcp c m => "MCP error " ++ c.numStr ++ ": " ++ m

/-- The outcome surfaced to the protocol transport for one call. -/
inductive Outcome
  | success (rows : List Row)
  | protocolError (code : ErrCode) (message : String)
deriving DecidableEq

/-- The error code of an outcome, if it is an error. -/
def outcomeCode : Outcome → Option ErrCode
  | Outcome.success _ => none
  | Outcome.protocolError c _ => some c

/-- The catch-all of the CallTool handler: every thrown error — plain,
TypeError, or already an `McpError` — is rewrapped as
`McpError(ErrorCode.InternalError, "Tool execution failed: " + message)`. -/
def wrapTool (e : JsError) : Outcome :=
  Outcome.protocolError ErrCode.internalError ("Tool execution failed: " ++ e.message)

/-- The catch-all of the ReadResource handler, analogous to `wrapTool`. -/
def wrapResource (e : JsError) : Outcome :=
  Outcome.protocolError ErrCode.internalError ("Failed to read resource: " ++ e.message)

/-- Arguments of a tool call (`request.params.arguments`); every field
the five tools ever read, each possibly absent. -/
structure ToolArgs where
  query : Option String := none
  database : Option String := none
  schema : Option String := none
  table_name : Option String := none
deriving DecidableEq

/-- SQL text built by the `list_schemas` case: truthiness test on
`args?.database`, verbatim template interpolation. -/
def listSchemasSql (database : Option String) : String :=
  if truthyOpt database then "SHOW SCHEMAS IN DATABASE " ++ database.getD ""
  else "SHOW SCHEMAS"

/-- SQL text built by the `list_tables` case: truthiness tests on
`args?.database` and `args?.schema`, verbatim template interpolation. -/
def listTablesSql (database schema : Option String) : String :=
  if truthyOpt database && truthyOpt schema then
    "SHOW TABLES IN " ++ database.getD "" ++ "." ++ schema.getD ""
  else if truthyOpt schema then "SHOW TABLES IN SCHEMA " ++ schema.getD ""
  else if truthyOpt database then "SHOW TABLES IN DATABASE " ++ database.getD ""
  else "SHOW TABLES"

/-- SQL text built by the `describe_table` case.  A missing
`table_name` interpolates as the string `undefined` (JavaScript
template-literal behaviour for `${undefined}`). -/
def describeTableSql (tableName : Option String) : String :=
  "DESCRIBE TABLE " ++ tableName.getD "undefined"

/-- The message of the TypeError raised by `query.trim()` when
`args?.query` is `undefined` (Node quotes the property name; the quotes
are elided here). -/
def undefinedTrimMessage : String :=
  "Cannot read properties of undefined (reading trim)"

/-- One executor submission (`executeQuery`): records the SQL text that
was submitted and converts the driver oracle result (`exec`) into either
rows or a thrown driver error. -/
def runExec (exec : String → Except String (List Row)) (sql : String) :
    List String × Except JsError (List Row) :=
  ([sql],
    match exec sql with
    | Except.ok rows => Except.ok rows
    | Except.error msg => Except.error (JsError.plain msg))

/-- The `switch (name)` body of the CallTool handler: returns the list
of SQL texts submitted to the executor and the result or thrown error. -/
def dispatchTool (exec : String → Except String (List Row)) (name : String)
    (args : ToolArgs) : List String × Except JsError (List Row) :=
  if name = "read_query" then
    match args.query with
    | none => ([], Except.error (JsError.typeErr undefinedTrimMessage))
    | some q =>
        if !(isSelectQuery q) then
          ([], Except.error (JsError.plain "Only SELECT queries are allowed"))
        else runExec exec q
  else if name = "list_databases" then runExec exec "SHOW DATABASES"
  else if name = "list_schemas" then runExec exec (listSchemasSql args.database)
  else if name = "list_tables" then runExec exec (listTablesSql args.database args.schema)
  else if name = "describe_table" then runExec exec (describeTableSql args.table_name)
  else ([], Except.error (JsError.mcp ErrCode.methodNotFound ("Unknown tool: " ++ name)))

/-- The body of the ReadResource handler after `connect()`. -/
def dispatchResource (exec : String → Except String (List Row)) (uri : String) :
    List String × Except JsError (List Row) :=
  if uri = "snowflake://databases" then runExec exec "SHOW DATABASES"
  else if uri = "snowflake://schemas" then runExec exec "SHOW SCHEMAS"
  else if uri = "snowflake://tables" then runExec exec "SHOW TABLES"
  else ([], Except.error (JsError.mcp ErrCode.invalidRequest ("Unknown resource: " ++ uri)))

/-- Everything observable about one handler invocation: the connection
slot afterwards, whether `createConnection` ran during the call, the SQL
texts submitted to the executor, and the surfaced outcome. -/
structure CallResult where
  slot : ConnSlot
  connectAttempted : Bool
  executed : List String
  outcome : Outcome
deriving DecidableEq

/-- Turn the dispatch result into the surfaced outcome of a tool call. -/
def toolOutcome : Except JsError (List Row) → Outcome
  | Except.ok rows => Outcome.success rows
  | Except.error e => wrapTool e

/-- Turn the dispatch result into the surfaced outcome of a resource
read. -/
def resourceOutcome : Except JsError (List Row) → Outcome
  | Except.ok rows => Outcome.success rows
  | Except.error e => wrapResource e

/-- The CallTool handler: `await this.connect()` runs FIRST, inside the
try block; a connect rejection is caught by the same catch-all as every
other error.  Only then does the `switch (name)` dispatch run. -/
def callTool (slot : ConnSlot) (connectRes : Option String)
    (exec : String → Except String (List Row)) (name : String) (args : ToolArgs) :
    CallResult :=
  let step := connectStep slot connectRes
  match step.2.2 with
  | some msg =>
      { slot := step.1, connectAttempted := step.2.1, executed := [],
        outcome := wrapTool (JsError.plain msg) }
  | none =>
      let d := dispatchTool exec name args
      { slot := step.1, connectAttempted := step.2.1, executed := d.1,
        outcome := toolOutcome d.2 }

/-- The ReadResource handler: same shape as `callTool`, with the
resource catch-all prefix. -/
def readResource (slot : ConnSlot) (connectRes : Option String)
    (exec : String → Except String (List Row)) (uri : String) : CallResult :=
  let step := connectStep slot connectRes
  match step.2.2 with
  | some msg =>
      { slot := step.1, connectAttempted := step.2.1, executed := [],
        outcome := wrapResource (JsError.plain msg) }
  | none =>
      let d := dispatchResource exec uri
      { slot := step.1, connectAttempted := step.2.1, executed := d.1,
        outcome := resourceOutcome d.2 }

/- Helper unfolding lemmas (each holds by definitional reduction). -/

/-- Unfolding of `callTool` when the slot already holds a connection. -/
theorem callTool_occupied (a : Bool) (r : Option String)
    (exec : String → Except String (List Row)) (name : String) (args : ToolArgs) :
    callTool (ConnSlot.conn a) r exec name args =
      { slot := ConnSlot.conn a, connectAttempted := false,
        executed := (dispatchTool exec name args).1,
        outcome := toolOutcome (dispatchTool exec name args).2 } := rfl

/-- Unfolding of `callTool` on an empty slot when the connect attempt
succeeds. -/
theorem callTool_fresh_ok (exec : String → Except String (List Row))
    (name : String) (args : ToolArgs) :
    callTool ConnSlot.empty none exec name args =
      { slot := ConnSlot.conn true, connectAttempted := true,
        executed := (dispatchTool exec name args).1,
        outcome := toolOutcome (dispatchTool exec name args).2 } := rfl

/-- Unfolding of `callTool` on an empty slot when the connect attempt
fails: the slot keeps the dead connection object and nothing is
dispatched. -/
theorem callTool_fresh_fail (msg : String) (exec : String → Except String (List Row))
    (name : String) (args : ToolArgs) :
    callTool ConnSlot.empty (some msg) exec name args =
      { slot := ConnSlot.conn false, connectAttempted := true,
        executed := [],
        outcome := wrapTool (JsError.plain msg) } := rfl

/-- Unfolding of `readResource` when the slot already holds a
connection. -/
theorem readResource_occupied (a : Bool) (r : Option String)
    (exec : String → Except String (List Row)) (uri : String) :
    readResource (ConnSlot.conn a) r exec uri =
      { slot := ConnSlot.conn a, connectAttempted := false,
        executed := (dispatchResource exec uri).1,
        outcome := resourceOutcome (dispatchResource exec uri).2 } := rfl

/-- Unfolding of `readResource` on an empty slot when the connect
attempt succeeds. -/
theorem readResource_fresh_ok (exec : String → Except String (List Row)) (uri : String) :
    readResource ConnSlot.empty none exec uri =
      { slot := ConnSlot.conn true, connectAttempted := true,
        executed := (dispatchResource exec uri).1,
        outcome := resourceOutcome (dispatchResource exec uri).2 } := rfl

/-- Unfolding of `readResource` on an empty slot when the connect
attempt fails. -/
theorem readResource_fresh_fail (msg : String) (exec : String → Except String (List Row))
    (uri : String) :
    readResource ConnSlot.empty (some msg) exec uri =
      { slot := ConnSlot.conn false, connectAttempted := true,
        executed := [],
        outcome := wrapResource (JsError.plain msg) } := rfl

/-- The executor always records exactly the submitted SQL text. -/
theorem runExec_fst (exec : String → Except String (List Row)) (sql : String) :
    (runExec exec sql).1 = [sql] := rfl

/-- A connect call on an occupied slot returns immediately: no creation
attempt, no error, slot unchanged. -/
theorem connectStep_occupied (a : Bool) (r : Option String) :
    connectStep (ConnSlot.conn a) r = (ConnSlot.conn a, false, none) := rfl

/-- After a successful first attempt the slot is live and later connect
calls never attempt again. -/
theorem runConnects_occupied (a : Bool) (rs : List (Option String)) :
    runConnects (ConnSlot.conn a) rs = (ConnSlot.conn a, 0) := by
  induction rs with
  | nil => rfl
  | cons r rs ih => simp [runConnects, connectStep, ih]

/-- Truthiness of a JavaScript `||` chain. -/
theorem truthy_jsOr (v : Option String) (d : String) :
    truthy (jsOr v d) = (truthyOpt v || truthy d) := by
  cases v with
  | none => simp [jsOr, truthyOpt]
  | some s =>
      by_cases h : truthy s
      · simp [jsOr, truthyOpt, h]
      · simp [jsOr, truthyOpt, h]

/-- Truthiness of `v || ""`. -/
theorem truthy_jsOr_empty (v : Option String) : truthy (jsOr v "") = truthyOpt v := by
  rw [truthy_jsOr]
  simp [truthy]

/-- Dispatch of an unknown tool name falls through every case to the
`McpError(MethodNotFound)` throw. -/
theorem dispatchTool_unknown (exec : String → Except String (List Row)) (name : String)
    (args : ToolArgs) (h1 : name ≠ "read_query") (h2 : name ≠ "list_databases")
    (h3 : name ≠ "list_schemas") (h4 : name ≠ "list_tables")
    (h5 : name ≠ "describe_table") :
    dispatchTool exec name args =
      ([], Except.error (JsError.mcp ErrCode.methodNotFound ("Unknown tool: " ++ name))) := by
  simp [dispatchTool, h1, h2, h3, h4, h5]

/-- Dispatch of an unknown resource URI falls through to the
`McpError(InvalidRequest)` throw. -/
theorem dispatchResource_unknown (exec : String → Except String (List Row)) (uri : String)
    (g1 : uri ≠ "snowflake://databases") (g2 : uri ≠ "snowflake://schemas")
    (g3 : uri ≠ "snowflake://tables") :
    dispatchResource exec uri =
      ([], Except.error (JsError.mcp ErrCode.invalidRequest ("Unknown resource: " ++ uri))) := by
  simp [dispatchResource, g1, g2, g3]

/-- C1 counterexample: on an empty slot a failing connect attempt does
NOT leave the slot empty — `this.connection` was assigned before the
await — and the next call therefore makes no fresh connection attempt. -/
theorem c1_connect_failure_cex :
    (callTool ConnSlot.empty (some "Network error") (fun _ => Except.ok ([] : List Row))
        "list_databases" ⟨none, none, none, none⟩).slot ≠ ConnSlot.empty ∧
    (callTool (ConnSlot.conn false) none (fun _ => Except.ok ([] : List Row))
        "list_databases" ⟨none, none, none, none⟩).connectAttempted = false := by
  decide

/-- C1 (amended): when establishing the session fails, the shared slot
is left holding the dead connection object created before the await (it
is not empty), the failing call executes no SQL and surfaces the wrapped
connect error, and every subsequent tool or resource call sees the
occupied slot and performs no fresh connection attempt. -/
theorem c1_connect_failure_slot_occupied (msg : String) (r : Option String)
    (exec : String → Except String (List Row)) (name uri : String) (args : ToolArgs) :
    (callTool ConnSlot.empty (some msg) exec name args).slot = ConnSlot.conn false ∧
    (callTool ConnSlot.empty (some msg) exec name args).executed = [] ∧
    (callTool ConnSlot.empty (some msg) exec name args).outcome =
      Outcome.protocolError ErrCode.internalError ("Tool execution failed: " ++ msg) ∧
    (callTool (ConnSlot.conn false) r exec name args).connectAttempted = false ∧
    (readResource ConnSlot.empty (some msg) exec uri).slot = ConnSlot.conn false ∧
    (readResource (ConnSlot.conn false) r exec uri).connectAttempted = false :=
  ⟨rfl, rfl, rfl, rfl, rfl, rfl⟩

/-- C2 counterexample: a `read_query` call with a non-SELECT query on an
empty slot does touch the connection before validating — the handler
runs `connect()` first, so a connection is created and established and
the slot mutates from empty to occupied, even though the call then fails
with the validation message. -/
theorem c2_validation_touches_connection_cex :
    (callTool ConnSlot.empty none (fun _ => Except.ok ([] : List Row)) "read_query"
        ⟨some "DELETE FROM t", none, none, none⟩).connectAttempted = true ∧
    (callTool ConnSlot.empty none (fun _ => Except.ok ([] : List Row)) "read_query"
        ⟨some "DELETE FROM t", none, none, none⟩).slot ≠ ConnSlot.empty ∧
    (callTool ConnSlot.empty none (fun _ => Except.ok ([] : List Row)) "read_query"
        ⟨some "DELETE FROM t", none, none, none⟩).outcome =
      Outcome.protocolError ErrCode.internalError
        "Tool execution failed: Only SELECT queries are allowed" := by
  decide

/-- C2 (amended): a `read_query` call whose query does not start with
SELECT fails with the message "Only SELECT queries are allowed"
(surfaced wrapped in an InternalError-class envelope) and never reaches
the executor, but only AFTER the handler has run `connect()`: on an
empty slot a connection is created and established first, mutating the
connection state. -/
theorem c2_read_query_validation_after_connect
    (exec : String → Except String (List Row)) (q : String) (a : Bool)
    (h : isSelectQuery q = false) :
    ((callTool ConnSlot.empty none exec "read_query" ⟨some q, none, none, none⟩).executed
        = [] ∧
     (callTool ConnSlot.empty none exec "read_query" ⟨some q, none, none, none⟩).outcome =
       Outcome.protocolError ErrCode.internalError
         "Tool execution failed: Only SELECT queries are allowed" ∧
     (callTool ConnSlot.empty none exec "read_query"
        ⟨some q, none, none, none⟩).connectAttempted = true ∧
     (callTool ConnSlot.empty none exec "read_query" ⟨some q, none, none, none⟩).slot
        = ConnSlot.conn true) ∧
    ((callTool (ConnSlot.conn a) none exec "read_query"
        ⟨some q, none, none, none⟩).executed = [] ∧
     (callTool (ConnSlot.conn a) none exec "read_query"
        ⟨some q, none, none, none⟩).outcome =
       Outcome.protocolError ErrCode.internalError
         "Tool execution failed: Only SELECT queries are allowed") := by
  simp [callTool_fresh_ok, callTool_occupied, dispatchTool, h, toolOutcome, wrapTool,
    JsError.message]

/-- Witness for C2 (amended) at the concrete non-SELECT query. -/
theorem c2_read_query_validation_after_connect_witness :
    isSelectQuery "DELETE FROM t" = false ∧
    (callTool ConnSlot.empty none (fun _ => Except.ok ([] : List Row)) "read_query"
        ⟨some "DELETE FROM t", none, none, none⟩).slot = ConnSlot.conn true :=
  ⟨by decide,
    (c2_read_query_validation_after_connect (fun _ => Except.ok ([] : List Row))
        "DELETE FROM t" true (by decide)).1.2.2.2⟩

/-- C3: a `read_query` whose text passes the SELECT prefix check (after
trimming, case-insensitively) is forwarded verbatim to the executor,
while one that fails the check produces the validation failure and the
executor is never invoked. -/
theorem c3_read_query_select_gate (slot : ConnSlot)
    (exec : String → Except String (List Row)) (q q' : String)
    (hq : isSelectQuery q = true) (hq' : isSelectQuery q' = false) :
    (callTool slot none exec "read_query" ⟨some q, none, none, none⟩).executed = [q] ∧
    (callTool slot none exec "read_query" ⟨some q', none, none, none⟩).executed = [] ∧
    (callTool slot none exec "read_query" ⟨some q', none, none, none⟩).outcome =
      Outcome.protocolError ErrCode.internalError
        "Tool execution failed: Only SELECT queries are allowed" := by
  cases slot <;>
    simp [callTool_occupied, callTool_fresh_ok, dispatchTool, hq, hq', runExec_fst,
      toolOutcome, wrapTool, JsError.message]

/-- Witness for C3 at the spec's example inputs. -/
theorem c3_read_query_select_gate_witness :
    isSelectQuery " select 1" = true ∧ isSelectQuery "DELETE FROM t" = false ∧
    (callTool ConnSlot.empty none (fun _ => Except.ok ([] : List Row)) "read_query"
        ⟨some " select 1", none, none, none⟩).executed = [" select 1"] :=
  ⟨by decide, by decide,
    (c3_read_query_select_gate ConnSlot.empty (fun _ => Except.ok ([] : List Row))
        " select 1" "DELETE FROM t" (by decide) (by decide)).1⟩

/-- C4 counterexample: with the database argument given as the empty
string and schema given as "B", the submitted SQL is
`SHOW TABLES IN SCHEMA B` — the empty string is NOT interpolated into
the two-argument form `SHOW TABLES IN .B`. -/
theorem c4_list_tables_empty_string_cex :
    (callTool (ConnSlot.conn true) none (fun _ => Except.ok ([] : List Row)) "list_tables"
        ⟨none, some "", some "B", none⟩).executed = ["SHOW TABLES IN SCHEMA B"] ∧
    "SHOW TABLES IN SCHEMA B" ≠ "SHOW TABLES IN .B" := by
  decide

/-- C4 (amended): the four SHOW TABLES shapes hold with "given" read as
given with a non-empty value (JavaScript truthiness): non-empty values
are interpolated verbatim, and an absent or empty-string argument
selects the corresponding shorter form. -/
theorem c4_list_tables_sql_shapes (slot : ConnSlot)
    (exec : String → Except String (List Row)) (db sch : Option String) :
    (truthyOpt db = true → truthyOpt sch = true →
      (callTool slot none exec "list_tables" ⟨none, db, sch, none⟩).executed =
        ["SHOW TABLES IN " ++ db.getD "" ++ "." ++ sch.getD ""]) ∧
    (truthyOpt db = false → truthyOpt sch = true →
      (callTool slot none exec "list_tables" ⟨none, db, sch, none⟩).executed =
        ["SHOW TABLES IN SCHEMA " ++ sch.getD ""]) ∧
    (truthyOpt db = true → truthyOpt sch = false →
      (callTool slot none exec "list_tables" ⟨none, db, sch, none⟩).executed =
        ["SHOW TABLES IN DATABASE " ++ db.getD ""]) ∧
    (truthyOpt db = false → truthyOpt sch = false →
      (callTool slot none exec "list_tables" ⟨none, db, sch, none⟩).executed =
        ["SHOW TABLES"]) := by
  refine ⟨fun h1 h2 => ?_, fun h1 h2 => ?_, fun h1 h2 => ?_, fun h1 h2 => ?_⟩ <;>
    cases slot <;>
      simp [callTool_occupied, callTool_fresh_ok, dispatchTool, listTablesSql,
        runExec_fst, h1, h2]

/-- Witness for C4 (amended) at the spec's example arguments. -/
theorem c4_list_tables_sql_shapes_witness :
    truthyOpt (some "A") = true ∧ truthyOpt (some "B") = true ∧
    (callTool ConnSlot.empty none (fun _ => Except.ok ([] : List Row)) "list_tables"
        ⟨none, some "A", some "B", none⟩).executed =
      ["SHOW TABLES IN " ++ (some "A").getD "" ++ "." ++ (some "B").getD ""] :=
  ⟨by decide, by decide,
    (c4_list_tables_sql_shapes ConnSlot.empty (fun _ => Except.ok ([] : List Row))
        (some "A") (some "B")).1 (by decide) (by decide)⟩

/-- C5 counterexample: with the database argument given as the empty
string, `list_schemas` submits `SHOW SCHEMAS`, not
`SHOW SCHEMAS IN DATABASE ` with the empty string interpolated. -/
theorem c5_list_schemas_empty_string_cex :
    (callTool (ConnSlot.conn true) none (fun _ => Except.ok ([] : List Row)) "list_schemas"
        ⟨none, some "", none, none⟩).executed = ["SHOW SCHEMAS"] ∧
    "SHOW SCHEMAS" ≠ "SHOW SCHEMAS IN DATABASE " := by
  decide

/-- C5 (amended): `list_schemas` submits `SHOW SCHEMAS` when the
database argument is absent or empty, and
`SHOW SCHEMAS IN DATABASE {database}` with the value interpolated
verbatim when it is given non-empty (JavaScript truthiness). -/
theorem c5_list_schemas_sql_shapes (slot : ConnSlot)
    (exec : String → Except String (List Row)) (db : Option String) :
    (truthyOpt db = true →
      (callTool slot none exec "list_schemas" ⟨none, db, none, none⟩).executed =
        ["SHOW SCHEMAS IN DATABASE " ++ db.getD ""]) ∧
    (truthyOpt db = false →
      (callTool slot none exec "list_schemas" ⟨none, db, none, none⟩).executed =
        ["SHOW SCHEMAS"]) := by
  refine ⟨fun h => ?_, fun h => ?_⟩ <;>
    cases slot <;>
      simp [callTool_occupied, callTool_fresh_ok, dispatchTool, listSchemasSql,
        runExec_fst, h]

/-- Witness for C5 (amended) at the spec's example argument. -/
theorem c5_list_schemas_sql_shapes_witness :
    truthyOpt (some "X") = true ∧
    (callTool ConnSlot.empty none (fun _ => Except.ok ([] : List Row)) "list_schemas"
        ⟨none, some "X", none, none⟩).executed =
      ["SHOW SCHEMAS IN DATABASE " ++ (some "X").getD ""] :=
  ⟨by decide,
    (c5_list_schemas_sql_shapes ConnSlot.empty (fun _ => Except.ok ([] : List Row))
        (some "X")).1 (by decide)⟩

/-- C6 counterexample: an unknown tool name and an unknown resource URI
do fail without executing SQL, but the surfaced protocol error class is
InternalError in both cases — the catch-all rewraps the internally
thrown MethodNotFound / InvalidRequest `McpError`s. -/
theorem c6_unknown_routing_error_class_cex :
    outcomeCode (callTool (ConnSlot.conn true) none (fun _ => Except.ok ([] : List Row))
        "frobnicate" ⟨none, none, none, none⟩).outcome = some ErrCode.internalError ∧
    some ErrCode.internalError ≠ some ErrCode.methodNotFound ∧
    (callTool (ConnSlot.conn true) none (fun _ => Except.ok ([] : List Row))
        "frobnicate" ⟨none, none, none, none⟩).executed = [] ∧
    outcomeCode (readResource (ConnSlot.conn true) none (fun _ => Except.ok ([] : List Row))
        "snowflake://bogus").outcome = some ErrCode.internalError ∧
    some ErrCode.internalError ≠ some ErrCode.invalidRequest := by
  decide

/-- C6 (amended): an unknown tool name throws a MethodNotFound-class
`McpError` internally and an unknown resource URI an
InvalidRequest-class one, and in both cases no SQL is executed — but the
surrounding catch-all rewraps the error, so the surfaced protocol error
is InternalError-class, carrying the original message. -/
theorem c6_unknown_routing_wrapped_internal (slot : ConnSlot)
    (exec : String → Except String (List Row)) (name uri : String) (args : ToolArgs)
    (h1 : name ≠ "read_query") (h2 : name ≠ "list_databases")
    (h3 : name ≠ "list_schemas") (h4 : name ≠ "list_tables")
    (h5 : name ≠ "describe_table") (g1 : uri ≠ "snowflake://databases")
    (g2 : uri ≠ "snowflake://schemas") (g3 : uri ≠ "snowflake://tables") :
    (callTool slot none exec name args).executed = [] ∧
    (callTool slot none exec name args).outcome =
      Outcome.protocolError ErrCode.internalError
        ("Tool execution failed: MCP error -32601: Unknown tool: " ++ name) ∧
    (readResource slot none exec uri).executed = [] ∧
    (readResource slot none exec uri).outcome =
      Outcome.protocolError ErrCode.internalError
        ("Failed to read resource: MCP error -32600: Unknown resource: " ++ uri) := by
  have hd := dispatchTool_unknown exec name args h1 h2 h3 h4 h5
  have hr := dispatchResource_unknown exec uri g1 g2 g3
  cases slot with
  | empty =>
      rw [callTool_fresh_ok, readResource_fresh_ok, hd, hr]
      exact ⟨rfl, rfl, rfl, rfl⟩
  | conn a =>
      rw [callTool_occupied, readResource_occupied, hd, hr]
      exact ⟨rfl, rfl, rfl, rfl⟩

/-- Witness for C6 (amended) at a concrete unknown tool name and URI. -/
theorem c6_unknown_routing_wrapped_internal_witness :
    (callTool (ConnSlot.conn true) none (fun _ => Except.ok ([] : List Row)) "nope"
        ⟨none, none, none, none⟩).outcome =
      Outcome.protocolError ErrCode.internalError
        ("Tool execution failed: MCP error -32601: Unknown tool: " ++ "nope") :=
  (c6_unknown_routing_wrapped_internal (ConnSlot.conn true)
      (fun _ => Except.ok ([] : List Row)) "nope" "u" ⟨none, none, none, none⟩
      (by decide) (by decide) (by decide) (by decide) (by decide)
      (by decide) (by decide) (by decide)).2.1

/-- C7: `connect()` is idempotent — on an occupied slot it returns
immediately with no creation attempt — and across any sequence of calls
whose first connection attempt succeeds, exactly one Connection object
is ever created and the slot holds that live connection throughout. -/
theorem c7_connect_idempotent_single_attempt (a : Bool) (r : Option String)
    (rs : List (Option String)) :
    connectStep (ConnSlot.conn a) r = (ConnSlot.conn a, false, none) ∧
    runConnects ConnSlot.empty (none :: rs) = (ConnSlot.conn true, 1) := by
  refine ⟨rfl, ?_⟩
  simp [runConnects, connectStep, runConnects_occupied]

/-- C8: configuration loading fails with the fatal startup error — and
no handler is installed — exactly when the account variable, the
username (from `SNOWFLAKE_USER` with `SNOWFLAKE_USERNAME` as fallback)
or the password variable is empty or unset; otherwise it succeeds and
the optional warehouse, database, schema and role variables are passed
through unchanged. -/
theorem c8_loadConfig_required_fields (env : Env) :
    ((truthyOpt env.SNOWFLAKE_ACCOUNT = false ∨
      (truthyOpt env.SNOWFLAKE_USER = false ∧ truthyOpt env.SNOWFLAKE_USERNAME = false) ∨
      truthyOpt env.SNOWFLAKE_PASSWORD = false) →
      startServer env = Except.error "Missing required Snowflake configuration") ∧
    (truthyOpt env.SNOWFLAKE_ACCOUNT = true →
     (truthyOpt env.SNOWFLAKE_USER = true ∨ truthyOpt env.SNOWFLAKE_USERNAME = true) →
     truthyOpt env.SNOWFLAKE_PASSWORD = true →
      startServer env = Except.ok
        { config :=
            { account := jsOr env.SNOWFLAKE_ACCOUNT ""
              username := jsOr env.SNOWFLAKE_USER (jsOr env.SNOWFLAKE_USERNAME "")
              password := jsOr env.SNOWFLAKE_PASSWORD ""
              warehouse := env.SNOWFLAKE_WAREHOUSE
              database := env.SNOWFLAKE_DATABASE
              schema := env.SNOWFLAKE_SCHEMA
              role := env.SNOWFLAKE_ROLE }
          handlersInstalled := true }) := by
  have ha := truthy_jsOr_empty env.SNOWFLAKE_ACCOUNT
  have hp := truthy_jsOr_empty env.SNOWFLAKE_PASSWORD
  have hu : truthy (jsOr env.SNOWFLAKE_USER (jsOr env.SNOWFLAKE_USERNAME "")) =
      (truthyOpt env.SNOWFLAKE_USER || truthyOpt env.SNOWFLAKE_USERNAME) := by
    rw [truthy_jsOr, truthy_jsOr_empty]
  constructor
  · intro h
    have hcond : (!truthy (jsOr env.SNOWFLAKE_ACCOUNT "") ||
        !truthy (jsOr env.SNOWFLAKE_USER (jsOr env.SNOWFLAKE_USERNAME "")) ||
        !truthy (jsOr env.SNOWFLAKE_PASSWORD "")) = true := by
      rw [ha, hu, hp]
      rcases h with h | ⟨h1, h2⟩ | h
      · simp [h]
      · simp [h1, h2]
      · simp [h]
    simp [startServer, loadConfig, hcond]
  · intro h1 h2 h3
    have hcond : (!truthy (jsOr env.SNOWFLAKE_ACCOUNT "") ||
        !truthy (jsOr env.SNOWFLAKE_USER (jsOr env.SNOWFLAKE_USERNAME "")) ||
        !truthy (jsOr env.SNOWFLAKE_PASSWORD "")) = false := by
      rw [ha, hu, hp]
      rcases h2 with h2 | h2 <;> simp [h1, h2, h3]
    simp [startServer, loadConfig, hcond]

/-- Witness for C8: a valid environment using the legacy username
variable succeeds with pass-through, and one missing the account fails. -/
theorem c8_loadConfig_required_fields_witness :
    startServer ⟨some "acct", none, some "legacy-user", some "pw",
        some "wh", none, none, none⟩ =
      Except.ok
        { config :=
            { account := jsOr (some "acct") ""
              username := jsOr none (jsOr (some "legacy-user") "")
              password := jsOr (some "pw") ""
              warehouse := some "wh"
              database := none
              schema := none
              role := none }
          handlersInstalled := true } ∧
    startServer ⟨none, some "u", none, some "pw", none, none, none, none⟩ =
      Except.error "Missing required Snowflake configuration" :=
  ⟨(c8_loadConfig_required_fields
      ⟨some "acct", none, some "legacy-user", some "pw", some "wh", none, none, none⟩).2
      (by decide) (Or.inr (by decide)) (by decide),
   (c8_loadConfig_required_fields
      ⟨none, some "u", none, some "pw", none, none, none, none⟩).1 (Or.inl (by decide))⟩

/-- C9: a `read_query` call that omits the query argument never produces
the SELECT validation message — the unguarded `query.trim()` on the
missing value raises a TypeError, which the catch-all surfaces wrapped
as an InternalError-class protocol error, with no SQL executed. -/
theorem c9_read_query_missing_query_type_error (slot : ConnSlot)
    (exec : String → Except String (List Row)) :
    (callTool slot none exec "read_query" ⟨none, none, none, none⟩).executed = [] ∧
    (callTool slot none exec "read_query" ⟨none, none, none, none⟩).outcome =
      Outcome.protocolError ErrCode.internalError
        ("Tool execution failed: " ++ undefinedTrimMessage) ∧
    ("Tool execution failed: " ++ undefinedTrimMessage) ≠
      "Tool execution failed: Only SELECT queries are allowed" := by
  cases slot <;> exact ⟨rfl, rfl, by decide⟩

/-- C10: the optional database and schema arguments are tested by
truthiness, so an empty-string value behaves exactly like an absent
argument: `list_schemas` with database "" submits `SHOW SCHEMAS`, and
`list_tables` submits the same SQL for an empty-string argument as for
the argument omitted. -/
theorem c10_empty_string_args_absent (slot : ConnSlot)
    (exec : String → Except String (List Row)) (db sch : Option String) :
    (callTool slot none exec "list_schemas" ⟨none, some "", none, none⟩).executed =
      ["SHOW SCHEMAS"] ∧
    (callTool slot none exec "list_tables" ⟨none, some "", sch, none⟩).executed =
      (callTool slot none exec "list_tables" ⟨none, none, sch, none⟩).executed ∧
    (callTool slot none exec "list_tables" ⟨none, db, some "", none⟩).executed =
      (callTool slot none exec "list_tables" ⟨none, db, none, none⟩).executed := by
  cases slot <;>
    refine ⟨rfl, rfl, ?_⟩ <;>
      simp [callTool_occupied, callTool_fresh_ok, dispatchTool, listTablesSql,
        runExec_fst, truthyOpt, truthy]

end SnowflakeMCP
